import Mathlib

/-!
Verification of the Mumble ActivityPub server against its specification.

The Python sources are shallowly embedded: Python strings become lists of
characters (abbreviated Str), dictionaries become structures with optional
fields, raised exceptions become Except or Option results, and DynamoDB or
S3 state becomes explicit state records threaded through the functions.
Each embedded definition carries a doc comment naming the Python function
it translates.
-/

namespace Mumble

/-- Python strings are modelled as lists of characters. -/
abbrev Str : Type := List Char

/-- Coerces a Lean string literal into the Str model. -/
def str (s : String) : Str := s.data

/-- Removes the pattern p from the front of l; none when l does not start
with p.  Models a regex literal match at the start of a string. -/
def dropHead : Str → Str → Option Str
  | [], l => some l
  | _ :: _, [] => none
  | p :: ps, c :: cs => if p = c then dropHead ps cs else none

theorem dropHead_append (p l : Str) : dropHead p (p ++ l) = some l := by
  induction p with
  | nil => rfl
  | cons a ps ih => simp [dropHead, ih]

/-- Splits a list at the first occurrence of the character c; none when c
does not occur.  Models both a regex group delimited by c and the Python
split with maxsplit one. -/
def breakAtChar (c : Char) : Str → Option (Str × Str)
  | [] => none
  | a :: rest =>
    if a = c then some ([], rest)
    else match breakAtChar c rest with
      | none => none
      | some (x, y) => some (a :: x, y)

theorem breakAtChar_append (c : Char) (u r : Str) (h : c ∉ u) :
    breakAtChar c (u ++ c :: r) = some (u, r) := by
  induction u with
  | nil => simp [breakAtChar]
  | cons a us ih =>
    have ha : ¬ (a = c) := by
      intro hac; exact h (hac ▸ List.mem_cons_self a us)
    have h2 : c ∉ us := fun hm => h (List.mem_cons_of_mem a hm)
    simp [breakAtChar, ha, ih h2]

/-- Boolean occurrence test for a character, modelling the Python in
operator on strings. -/
def hasChar (c : Char) : Str → Bool
  | [] => false
  | a :: rest => a = c || hasChar c rest

theorem hasChar_eq_false_iff (c : Char) (l : Str) :
    hasChar c l = false ↔ c ∉ l := by
  induction l with
  | nil => simp [hasChar]
  | cons a rest ih =>
    simp only [hasChar, Bool.or_eq_false_iff, decide_eq_false_iff_not,
      List.mem_cons, ih]
    constructor
    · rintro ⟨h1, h2⟩ (rfl | hm)
      · exact h1 rfl
      · exact h2 hm
    · intro h
      exact ⟨fun hac => h (Or.inl hac.symm), fun hm => h (Or.inr hm)⟩

/-- Strips trailing occurrences of c, modelling the Python rstrip method. -/
def rstripChar (c : Char) (l : Str) : Str :=
  (l.reverse.dropWhile (fun a => decide (a = c))).reverse

theorem rstripChar_append (c : Char) (p u : Str) (hu : u ≠ [])
    (h : ∀ a ∈ u, a ≠ c) : rstripChar c (p ++ u) = p ++ u := by
  unfold rstripChar
  rw [List.reverse_append]
  match hrev : u.reverse with
  | [] => exact absurd (List.reverse_eq_nil_iff.mp hrev) hu
  | b :: t =>
    have hb : b ∈ u := by
      have : b ∈ u.reverse := hrev ▸ List.mem_cons_self b t
      exact List.mem_reverse.mp this
    have hbc : ¬ (b = c) := h b hb
    simp only [List.cons_append, List.dropWhile_cons, decide_eq_true_eq, hbc,
      if_false]
    rw [← List.cons_append, ← hrev, ← List.reverse_append, List.reverse_reverse]

theorem takeWhile_append_eq (p : Char → Bool) (u r : Str)
    (hu : ∀ a ∈ u, p a = true)
    (hr : match r with | [] => True | a :: _ => p a = false) :
    (u ++ r).takeWhile p = u ∧ (u ++ r).dropWhile p = r := by
  induction u with
  | nil =>
    match r with
    | [] => simp
    | a :: rest =>
      simp only [List.nil_append, List.takeWhile_cons, List.dropWhile_cons]
      simp only at hr
      simp [hr]
  | cons a us ih =>
    have ha : p a = true := hu a (List.mem_cons_self a us)
    have hus : ∀ b ∈ us, p b = true := fun b hb => hu b (List.mem_cons_of_mem a hb)
    obtain ⟨h1, h2⟩ := ih hus
    simp [List.takeWhile_cons, List.dropWhile_cons, ha, h1, h2]

/-! ## The ID scheme (libmumble.id_scheme) -/

/-- Translates make_user_id: the actor URI of a user. -/
def make_user_id (domain_name username : Str) : Str :=
  str "https://" ++ domain_name ++ str "/users/" ++ username

/-- Translates make_user_inbox_uri. -/
def make_user_inbox_uri (user_id : Str) : Str := user_id ++ str "/inbox"

/-- Translates make_user_outbox_uri. -/
def make_user_outbox_uri (user_id : Str) : Str := user_id ++ str "/outbox"

/-- Translates make_user_followers_uri. -/
def make_user_followers_uri (user_id : Str) : Str := user_id ++ str "/followers"

/-- Splits an absolute https URI into host and path, modelling the use of
urllib.parse.urlparse followed by the hostname and path accessors.  The
model covers URIs of the canonical shape scheme://host/path produced and
consumed by this code base (no userinfo, port, query, fragment or percent
escape, and an https scheme); on other inputs it returns none, as the
callers treat a missing hostname as an error. -/
def uriHostPath (uri : Str) : Option (Str × Str) :=
  match dropHead (str "https://") uri with
  | none => none
  | some rest =>
    let host := rest.takeWhile (fun a => decide (a ≠ '/'))
    let path := rest.dropWhile (fun a => decide (a ≠ '/'))
    if host.isEmpty then none else some (host, path)

/-- Translates split_user_path: matches the user path against the pattern
slash users slash followed by one or more non-slash characters, and returns
the username together with the remaining path. -/
def split_user_path (user_path : Str) : Option (Str × Str) :=
  match dropHead (str "/users/") user_path with
  | none => none
  | some rest =>
    let username := rest.takeWhile (fun a => decide (a ≠ '/'))
    let remaining := rest.dropWhile (fun a => decide (a ≠ '/'))
    if username.isEmpty then none else some (username, remaining)

/-- Translates libmumble.user_table.parse_user_id: hostname plus an exact
path of the form slash users slash username, allowing a trailing slash. -/
def parse_user_id (user_id : Str) : Option (Str × Str) :=
  match uriHostPath user_id with
  | none => none
  | some (host, path) =>
    let path := rstripChar '/' path
    match dropHead (str "/users/") path with
    | none => none
    | some u =>
      if u.isEmpty then none
      else if hasChar '/' u then none
      else some (host, u)

/-- Translates get_username_from_user_id. -/
def get_username_from_user_id (user_id : Str) : Option Str :=
  (parse_user_id user_id).map (fun p => p.2)

/-! ## Claim C9: is_public (libactivitypub.objects.APObject.is_public) -/

/-- The reserved ActivityStreams public address. -/
def ACTIVITY_STREAMS_PUBLIC_ADDRESS : Str :=
  str "https://www.w3.org/ns/activitystreams#Public"

/-- The JSON-LD ActivityStreams context. -/
def ACTIVITY_STREAMS_CONTEXT : Str := str "https://www.w3.org/ns/activitystreams"

/-- A value that is either a single string or a list of strings, as accepted
for the to, cc and bcc audience fields (is_str_or_strs). -/
inductive StrOrStrs : Type
  | one (s : Str)
  | many (l : List Str)
deriving DecidableEq

/-- The audience fields of an ActivityPub object that is_public consults;
a missing attribute (hasattr false) is none. -/
structure APObjectAud : Type where
  to? : Option StrOrStrs
  cc? : Option StrOrStrs
deriving DecidableEq

/-- Translates the inner helper contains_public of APObject.is_public. -/
def contains_public : StrOrStrs → Bool
  | .one s => decide (s = ACTIVITY_STREAMS_PUBLIC_ADDRESS)
  | .many l => decide (ACTIVITY_STREAMS_PUBLIC_ADDRESS ∈ l)

/-- Translates APObject.is_public: true when the to field exists and
contains the public address, or the cc field exists and contains it. -/
def is_public (o : APObjectAud) : Bool :=
  (match o.to? with
   | some addresses => contains_public addresses
   | none => false) ||
  (match o.cc? with
   | some addresses => contains_public addresses
   | none => false)

/-- The public address appears among an optional audience value. -/
def audienceHasPublic : Option StrOrStrs → Prop
  | none => False
  | some (.one s) => s = ACTIVITY_STREAMS_PUBLIC_ADDRESS
  | some (.many l) => ACTIVITY_STREAMS_PUBLIC_ADDRESS ∈ l

/-- Claim C9: for every ActivityPub object, is_public returns true exactly
when the reserved public address appears in its to or cc audience (each a
single string or a list of strings), and an object with neither to nor cc
is not public. -/
theorem C9_is_public_iff (o : APObjectAud) :
    (is_public o = true ↔ (audienceHasPublic o.to? ∨ audienceHasPublic o.cc?)) ∧
    (o.to? = none → o.cc? = none → is_public o = false) := by
  constructor
  · unfold is_public
    match hto : o.to?, hcc : o.cc? with
    | none, none => simp [audienceHasPublic]
    | none, some a => cases a <;> simp [audienceHasPublic, contains_public]
    | some a, none => cases a <;> simp [audienceHasPublic, contains_public]
    | some a, some b =>
      cases a <;> cases b <;> simp [audienceHasPublic, contains_public]
  · intro hto hcc
    unfold is_public
    rw [hto, hcc]
    rfl

/-- Witness for claim C9 at a concrete object with neither to nor cc. -/
theorem C9_is_public_iff_witness :
    is_public { to? := none, cc? := none } = false :=
  (C9_is_public_iff { to? := none, cc? := none }).2 rfl rfl

/-! ## Claim C2: WebFinger (web_finger.index.lambda_handler) -/

/-- Translates libactivitypub.utils.parse_webfinger_id: splits an account
of the form name at-sign domain at the first at-sign; none models the
ValueError when no at-sign occurs. -/
def parse_webfinger_id (account : Str) : Option (Str × Str) :=
  breakAtChar '@' account

/-- Translates libactivitypub.utils.parse_acct_uri: strips the acct scheme
and parses the WebFinger account. -/
def parse_acct_uri (uri : Str) : Option (Str × Str) :=
  match dropHead (str "acct:") uri with
  | none => none
  | some rest => parse_webfinger_id rest

/-- Failure kinds of the WebFinger handler. -/
inductive WebFingerErr : Type
  | badRequest
  | unexpectedDomain
  | notFound
deriving DecidableEq

/-- One link of a WebFinger response document. -/
structure WebFingerLink : Type where
  rel : Str
  typ : Str
  href : Str
deriving DecidableEq

/-- A WebFinger response document. -/
structure WebFingerDoc : Type where
  subject : Str
  links : List WebFingerLink
deriving DecidableEq

/-- Translates web_finger.index.lambda_handler, with host_domain_name the
already resolved domain (the DOMAIN_NAME environment value or the event
apiDomainName).  Note the source compares the account name against the
hard-coded literal kemoto (marked TODO in the source) instead of looking
the user up in the user table. -/
def web_finger_lambda_handler (host_domain_name resource : Str) :
    Except WebFingerErr WebFingerDoc :=
  match parse_acct_uri resource with
  | none => .error .badRequest
  | some (name, domain_name) =>
    if domain_name ≠ host_domain_name then .error .unexpectedDomain
    else if name ≠ str "kemoto" then .error .notFound
    else .ok
      { subject := name ++ '@' :: domain_name
        links := [{ rel := str "self"
                    typ := str "application/activity+json"
                    href := str "https://" ++ host_domain_name ++ str "/users/" ++ name }] }

/-- Claim C2 (code bug evidence): the handler never consults the user
index; with configured domain example.social it rejects the existing user
alice with NotFound, while it answers for the hard-coded name kemoto.  The
first conjunct evaluates the code at the failing input of the claim; the
second shows that the success path exists only for the literal kemoto. -/
theorem C2_web_finger_hardcoded :
    web_finger_lambda_handler (str "example.social") (str "acct:alice@example.social")
      = .error .notFound ∧
    web_finger_lambda_handler (str "example.social") (str "acct:kemoto@example.social")
      = .ok { subject := str "kemoto@example.social"
              links := [{ rel := str "self"
                          typ := str "application/activity+json"
                          href := str "https://example.social/users/kemoto" }] } := by
  constructor <;> rfl

/-! ## Claim C5: activity cursor codec (libmumble.object_table) -/

/-- A DynamoDB primary key, a pair of partition key pk and sort key sk. -/
structure PrimaryKey : Type where
  pk : Str
  sk : Str
deriving DecidableEq

/-- An ASCII decimal digit, as matched by the regex digit class. -/
def isDig (c : Char) : Bool := decide ('0' ≤ c) && decide (c ≤ '9')

/-- Matches the regex for a month, four digits, a dash and two digits,
anchored on both sides (fixed width seven). -/
def checkYYYYMM (l : Str) : Bool :=
  decide (l.length = 7) &&
  isDig (l.getD 0 ' ') && isDig (l.getD 1 ' ') &&
  isDig (l.getD 2 ' ') && isDig (l.getD 3 ' ') &&
  decide (l.getD 4 ' ' = '-') &&
  isDig (l.getD 5 ' ') && isDig (l.getD 6 ' ')

/-- Matches the regex for the day-and-time half of an activity sort key:
two digits, the letter T, then hours, minutes, seconds and a six digit
microsecond fraction (fixed width eighteen). -/
def checkDDT (l : Str) : Bool :=
  decide (l.length = 18) &&
  isDig (l.getD 0 ' ') && isDig (l.getD 1 ' ') &&
  decide (l.getD 2 ' ' = 'T') &&
  isDig (l.getD 3 ' ') && isDig (l.getD 4 ' ') &&
  decide (l.getD 5 ' ' = ':') &&
  isDig (l.getD 6 ' ') && isDig (l.getD 7 ' ') &&
  decide (l.getD 8 ' ' = ':') &&
  isDig (l.getD 9 ' ') && isDig (l.getD 10 ' ') &&
  decide (l.getD 11 ' ' = '.') &&
  isDig (l.getD 12 ' ') && isDig (l.getD 13 ' ') &&
  isDig (l.getD 14 ' ') && isDig (l.getD 15 ' ') &&
  isDig (l.getD 16 ' ') && isDig (l.getD 17 ' ')

theorem checkYYYYMM_length {l : Str} (h : checkYYYYMM l = true) : l.length = 7 := by
  unfold checkYYYYMM at h
  simp only [Bool.and_eq_true, decide_eq_true_eq] at h
  exact h.1.1.1.1.1.1.1

theorem checkDDT_length {l : Str} (h : checkDDT l = true) : l.length = 18 := by
  unfold checkDDT at h
  simp only [Bool.and_eq_true, decide_eq_true_eq] at h
  exact h.1.1.1.1.1.1.1.1.1.1.1.1.1.1.1.1.1.1

/-- Translates object_table.serialize_activity_key.  The partition key must
match the regex anchored activity colon, one or more non-colon characters,
colon, month; the sort key must match the regex day-time group, colon, one
or more non-colon characters.  Returns the serialized cursor, or none for
the ValueError raised on a mismatch. -/
def serialize_activity_key (key : PrimaryKey) : Option Str :=
  match dropHead (str "activity:") key.pk with
  | none => none
  | some rest =>
    match breakAtChar ':' rest with
    | none => none
    | some (uname, ym) =>
      if uname.isEmpty then none
      else if checkYYYYMM ym then
        let dt := key.sk.take 18
        match key.sk.drop 18 with
        | ':' :: up =>
          if checkDDT dt && !up.isEmpty && !hasChar ':' up then
            some (ym ++ '-' :: (dt ++ ':' :: up))
          else none
        | _ => none
      else none

/-- Translates object_table.deserialize_activity_key.  The serialized key
must match the regex month, dash, day-time group, colon, one or more
non-colon characters; the caller supplies the username that the
reconstructed partition key embeds. -/
def deserialize_activity_key (key : Str) (username : Str) : Option PrimaryKey :=
  let ym := key.take 7
  if checkYYYYMM ym then
    match key.drop 7 with
    | '-' :: r2 =>
      let dt := r2.take 18
      match r2.drop 18 with
      | ':' :: up =>
        if checkDDT dt && !up.isEmpty && !hasChar ':' up then
          some { pk := str "activity:" ++ username ++ ':' :: ym
                 sk := dt ++ ':' :: up }
        else none
      | _ => none
    | _ => none
  else none

theorem isEmpty_false_of_ne_nil {l : Str} (h : l ≠ []) : l.isEmpty = false := by
  cases l with
  | nil => exact absurd rfl h
  | cons a t => rfl

/-- Claim C5: serializing an activity primary key of the well-formed shape
and deserializing the result with the same username is the identity, and
deserializing any well-formed serialized cursor and serializing the result
gives the cursor back.  Both directions follow from the two stated
equations, which compose to the identity either way around. -/
theorem C5_activity_cursor_roundtrip
    (uname ym dt up : Str)
    (h1 : uname ≠ []) (h2 : ':' ∉ uname)
    (h3 : checkYYYYMM ym = true) (h4 : checkDDT dt = true)
    (h5 : up ≠ []) (h6 : ':' ∉ up) :
    serialize_activity_key
        { pk := str "activity:" ++ uname ++ ':' :: ym, sk := dt ++ ':' :: up }
      = some (ym ++ '-' :: (dt ++ ':' :: up)) ∧
    deserialize_activity_key (ym ++ '-' :: (dt ++ ':' :: up)) uname
      = some { pk := str "activity:" ++ uname ++ ':' :: ym, sk := dt ++ ':' :: up } := by
  have hdt18 : dt.length = 18 := checkDDT_length h4
  have hym7 : ym.length = 7 := checkYYYYMM_length h3
  have htake : (dt ++ ':' :: up).take 18 = dt := by
    rw [← hdt18]; exact List.take_left dt (':' :: up)
  have hdrop : (dt ++ ':' :: up).drop 18 = ':' :: up := by
    rw [← hdt18]; exact List.drop_left dt (':' :: up)
  have hcond : (checkDDT dt && !up.isEmpty && !hasChar ':' up) = true := by
    rw [h4, isEmpty_false_of_ne_nil h5, (hasChar_eq_false_iff ':' up).mpr h6]
    rfl
  have hune : uname.isEmpty = false := isEmpty_false_of_ne_nil h1
  constructor
  · show serialize_activity_key _ = _
    unfold serialize_activity_key
    simp only [List.append_assoc, dropHead_append,
      breakAtChar_append ':' uname ym h2, hune, Bool.false_eq_true, if_false,
      h3, if_true, htake, hdrop, hcond]
  · show deserialize_activity_key _ _ = _
    unfold deserialize_activity_key
    have htake7 : (ym ++ '-' :: (dt ++ ':' :: up)).take 7 = ym := by
      rw [← hym7]; exact List.take_left ym _
    have hdrop7 : (ym ++ '-' :: (dt ++ ':' :: up)).drop 7 = '-' :: (dt ++ ':' :: up) := by
      rw [← hym7]; exact List.drop_left ym _
    simp only [List.append_assoc, htake7, hdrop7, h3, if_true, htake, hdrop, hcond]

/-- Witness for claim C5 at a concrete key and cursor. -/
theorem C5_activity_cursor_roundtrip_witness :
    serialize_activity_key
        { pk := str "activity:" ++ str "alice" ++ ':' :: str "2023-05"
          sk := str "17T10:31:00.123456" ++ ':' :: str "0189" }
      = some (str "2023-05" ++ '-' :: (str "17T10:31:00.123456" ++ ':' :: str "0189")) ∧
    deserialize_activity_key
        (str "2023-05" ++ '-' :: (str "17T10:31:00.123456" ++ ':' :: str "0189"))
        (str "alice")
      = some { pk := str "activity:" ++ str "alice" ++ ':' :: str "2023-05"
               sk := str "17T10:31:00.123456" ++ ':' :: str "0189" } :=
  C5_activity_cursor_roundtrip (str "alice") (str "2023-05")
    (str "17T10:31:00.123456") (str "0189")
    (by decide) (by decide) (by decide) (by decide) (by decide) (by decide)

/-! ## Claims C1 and C10: follower edges (libmumble.user_table.UserTable) -/

/-- The fields of a Follow activity consumed by the user table: the
activity id, the actor id, and the followed object id (Follow.followed_id). -/
structure FollowActivity : Type where
  id : Str
  actor_id : Str
  followed_id : Str
deriving DecidableEq

/-- A follower edge item as written by add_user_follower. -/
structure FollowerItem : Type where
  createdAt : Str
  updatedAt : Str
  followerId : Str
  followActivityId : Str
deriving DecidableEq

/-- The user table state relevant to follower mutation: the follower edge
items keyed by their full primary key, and the followerCount attribute of
each user record.  The count is total, with zero for an absent attribute,
matching the DynamoDB ADD update action that treats a missing numeric
attribute as zero. -/
structure UserTableState : Type where
  followers : List ((Str × Str) × FollowerItem)
  followerCount : Str → Int

/-- Translates UserTable.make_follower_partition_key. -/
def make_follower_partition_key (username : Str) : Str :=
  str "follower:" ++ username

/-- Translates UserTable.make_follower_key. -/
def make_follower_key (username follower_id : Str) : Str × Str :=
  (make_follower_partition_key username, follower_id)

/-- The item stored under a full primary key, modelling a DynamoDB read of
the item the conditional expressions are evaluated against. -/
def findEdge (s : UserTableState) (key : Str × Str) : Option FollowerItem :=
  (s.followers.find? (fun e => decide (e.1 = key))).map (fun e => e.2)

/-- The state after the conditional put of a follower edge together with
the unconditional ADD of one to the followerCount attribute, as performed
by the body of the try block of add_user_follower when the conditional
check passes. -/
def insertFollower (now username : Str) (follow : FollowActivity)
    (s : UserTableState) : UserTableState :=
  { followers := (make_follower_key username follow.actor_id,
      { createdAt := now, updatedAt := now, followerId := follow.actor_id,
        followActivityId := follow.id }) :: s.followers
    followerCount := fun u =>
      if u = username then s.followerCount u + 1 else s.followerCount u }

/-- The state after the conditional delete of a follower edge together with
the unconditional ADD of minus one to the followerCount attribute, as
performed by the body of the try block of remove_user_follower when the
conditional check passes. -/
def deleteFollower (username : Str) (key : Str × Str)
    (s : UserTableState) : UserTableState :=
  { followers := s.followers.filter (fun e => decide (e.1 ≠ key))
    followerCount := fun u =>
      if u = username then s.followerCount u - 1 else s.followerCount u }

/-- Translates UserTable.add_user_follower.  The error models the
ValueError raised when the object of the follow does not name the user; a
ConditionalCheckFailedException on the conditional put is caught and the
call returns with the state unchanged (the count update is inside the same
try block and is skipped). -/
def add_user_follower (now username : Str) (follow : FollowActivity)
    (s : UserTableState) : Except Unit UserTableState :=
  if get_username_from_user_id follow.followed_id ≠ some username then
    .error ()
  else
    match findEdge s (make_follower_key username follow.actor_id) with
    | some _ => .ok s
    | none => .ok (insertFollower now username follow s)

/-- Translates UserTable.remove_user_follower.  The boolean reports whether
the warning about a follow activity id mismatch was logged; a mismatch has
no other effect.  A ConditionalCheckFailedException on the conditional
delete is caught and the call returns with the state unchanged. -/
def remove_user_follower (username : Str) (follow : FollowActivity)
    (s : UserTableState) : Except Unit (UserTableState × Bool) :=
  if get_username_from_user_id follow.followed_id ≠ some username then
    .error ()
  else
    let key := make_follower_key username follow.actor_id
    match findEdge s key with
    | none => .ok (s, false)
    | some item =>
      .ok (deleteFollower username key s,
           decide (item.followActivityId ≠ follow.id))

/-- The empty user table used by the concrete counterexample of claim C1. -/
def emptyUserTable : UserTableState := { followers := [], followerCount := fun _ => 0 }

/-- The Follow activity used by the concrete counterexample of claim C1. -/
def followBobAlice : FollowActivity :=
  { id := str "https://remote.example/activities/f1"
    actor_id := str "https://remote.example/users/bob"
    followed_id := str "https://example.social/users/alice" }

/-- Claim C1 counterexample: on an empty table, add_user_follower for user
alice succeeds and changes the followerCount attribute of alice from zero
to one, so the edge-mutation site does mutate the counter. -/
theorem C1_follower_count_changes :
    (match add_user_follower (str "2023-01-01T00:00:00.000000Z") (str "alice")
        followBobAlice emptyUserTable with
     | .ok s1 => s1.followerCount (str "alice")
     | .error _ => 0) = 1 ∧
    emptyUserTable.followerCount (str "alice") = 0 := by
  exact ⟨by decide, rfl⟩

/-- Claim C1 as amended: for every user and Follow activity whose object
names the user, add_user_follower conditionally inserts the follower edge,
and when the insert succeeds it also increments the followerCount of the
user record by one; on a duplicate insert the state, including the counter,
is unchanged.  Symmetrically remove_user_follower decrements the counter by
one exactly when the conditional delete succeeds. -/
theorem C1_follower_mutation (now username : Str) (follow : FollowActivity)
    (s : UserTableState)
    (hobj : get_username_from_user_id follow.followed_id = some username) :
    (findEdge s (make_follower_key username follow.actor_id) = none →
      add_user_follower now username follow s
          = .ok (insertFollower now username follow s) ∧
      (insertFollower now username follow s).followerCount username
          = s.followerCount username + 1) ∧
    (∀ item, findEdge s (make_follower_key username follow.actor_id) = some item →
      add_user_follower now username follow s = .ok s) ∧
    (∀ item, findEdge s (make_follower_key username follow.actor_id) = some item →
      remove_user_follower username follow s
          = .ok (deleteFollower username (make_follower_key username follow.actor_id) s,
                 decide (item.followActivityId ≠ follow.id)) ∧
      (deleteFollower username (make_follower_key username follow.actor_id) s).followerCount username
          = s.followerCount username - 1) ∧
    (findEdge s (make_follower_key username follow.actor_id) = none →
      remove_user_follower username follow s = .ok (s, false)) := by
  refine ⟨fun hnone => ?_, fun item hsome => ?_, fun item hsome => ?_, fun hnone => ?_⟩
  · constructor
    · unfold add_user_follower
      simp only [hobj, ne_eq, not_true_eq_false, if_false, hnone]
    · simp [insertFollower]
  · unfold add_user_follower
    simp only [hobj, ne_eq, not_true_eq_false, if_false, hsome]
  · constructor
    · unfold remove_user_follower
      simp only [hobj, ne_eq, not_true_eq_false, if_false, hsome]
    · simp [deleteFollower]
  · unfold remove_user_follower
    simp only [hobj, ne_eq, not_true_eq_false, if_false, hnone]

/-- Witness for the amended claim C1 at a concrete user, follow and empty
table. -/
theorem C1_follower_mutation_witness :
    (findEdge emptyUserTable (make_follower_key (str "alice") followBobAlice.actor_id) = none →
      add_user_follower (str "now") (str "alice") followBobAlice emptyUserTable
          = .ok (insertFollower (str "now") (str "alice") followBobAlice emptyUserTable) ∧
      (insertFollower (str "now") (str "alice") followBobAlice emptyUserTable).followerCount (str "alice")
          = emptyUserTable.followerCount (str "alice") + 1) ∧
    (∀ item, findEdge emptyUserTable (make_follower_key (str "alice") followBobAlice.actor_id) = some item →
      add_user_follower (str "now") (str "alice") followBobAlice emptyUserTable = .ok emptyUserTable) ∧
    (∀ item, findEdge emptyUserTable (make_follower_key (str "alice") followBobAlice.actor_id) = some item →
      remove_user_follower (str "alice") followBobAlice emptyUserTable
          = .ok (deleteFollower (str "alice") (make_follower_key (str "alice") followBobAlice.actor_id) emptyUserTable,
                 decide (item.followActivityId ≠ followBobAlice.id)) ∧
      (deleteFollower (str "alice") (make_follower_key (str "alice") followBobAlice.actor_id) emptyUserTable).followerCount (str "alice")
          = emptyUserTable.followerCount (str "alice") - 1) ∧
    (findEdge emptyUserTable (make_follower_key (str "alice") followBobAlice.actor_id) = none →
      remove_user_follower (str "alice") followBobAlice emptyUserTable = .ok (emptyUserTable, false)) :=
  C1_follower_mutation (str "now") (str "alice") followBobAlice emptyUserTable (by decide)

/-- Claim C10: for every stored follower edge whose stored follow activity
id differs from the id of the Undo-ed Follow by the same actor, the
conditional delete still succeeds: the result is ok, the mismatch is
reported only as a logged warning (the boolean), and the edge is gone from
the resulting state. -/
theorem C10_remove_follower_id_mismatch (username : Str)
    (follow : FollowActivity) (s : UserTableState) (item : FollowerItem)
    (hobj : get_username_from_user_id follow.followed_id = some username)
    (hsome : findEdge s (make_follower_key username follow.actor_id) = some item)
    (hmismatch : item.followActivityId ≠ follow.id) :
    remove_user_follower username follow s
        = .ok (deleteFollower username (make_follower_key username follow.actor_id) s, true) ∧
    findEdge (deleteFollower username (make_follower_key username follow.actor_id) s)
        (make_follower_key username follow.actor_id) = none := by
  constructor
  · unfold remove_user_follower
    simp only [hobj, ne_eq, not_true_eq_false, if_false, hsome, hmismatch,
      not_false_eq_true, decide_True]
  · unfold deleteFollower findEdge
    dsimp only
    rw [Option.map_eq_none', List.find?_eq_none]
    intro x hx
    rw [List.mem_filter] at hx
    simpa using hx.2

/-- Witness for claim C10: a table holding the edge for a different follow
activity id, from which an Undo of a later Follow still removes the edge. -/
theorem C10_remove_follower_id_mismatch_witness :
    remove_user_follower (str "alice") followBobAlice
        { followers := [(make_follower_key (str "alice") (str "https://remote.example/users/bob"),
            { createdAt := str "t0", updatedAt := str "t0",
              followerId := str "https://remote.example/users/bob",
              followActivityId := str "https://remote.example/activities/f0" })]
          followerCount := fun _ => 1 }
        = .ok (deleteFollower (str "alice")
                 (make_follower_key (str "alice") followBobAlice.actor_id)
                 { followers := [(make_follower_key (str "alice") (str "https://remote.example/users/bob"),
                     { createdAt := str "t0", updatedAt := str "t0",
                       followerId := str "https://remote.example/users/bob",
                       followActivityId := str "https://remote.example/activities/f0" })]
                   followerCount := fun _ => 1 }, true) ∧
    findEdge (deleteFollower (str "alice")
        (make_follower_key (str "alice") followBobAlice.actor_id)
        { followers := [(make_follower_key (str "alice") (str "https://remote.example/users/bob"),
            { createdAt := str "t0", updatedAt := str "t0",
              followerId := str "https://remote.example/users/bob",
              followActivityId := str "https://remote.example/activities/f0" })]
          followerCount := fun _ => 1 })
        (make_follower_key (str "alice") followBobAlice.actor_id) = none :=
  C10_remove_follower_id_mismatch (str "alice") followBobAlice _
    { createdAt := str "t0", updatedAt := str "t0",
      followerId := str "https://remote.example/users/bob",
      followActivityId := str "https://remote.example/activities/f0" }
    (by decide) (by decide) (by decide)

/-! ## Claim C4: empty before pages (get_followers and get_outbox_activities) -/

/-- The sixteen upper-case hexadecimal digits. -/
def hexDigitChar (n : Nat) : Char := (str "0123456789ABCDEF").getD n '0'

/-- Characters that urllib.parse.quote never escapes: ASCII letters,
digits, underscore, dot, dash and tilde. -/
def isUrlSafe (c : Char) : Bool :=
  (decide ('A' ≤ c) && decide (c ≤ 'Z')) ||
  (decide ('a' ≤ c) && decide (c ≤ 'z')) ||
  (decide ('0' ≤ c) && decide (c ≤ '9')) ||
  decide (c = '_') || decide (c = '.') || decide (c = '-') || decide (c = '~')

/-- Percent-encodes one byte as a percent sign and two hexadecimal digits. -/
def percentEncodeByte (n : Nat) : Str :=
  ['%', hexDigitChar (n / 16 % 16), hexDigitChar (n % 16)]

/-- Translates libmumble.utils.urlencode, which calls quote with an empty
safe set so that slashes are escaped too.  Unsafe characters are expanded
to the percent-encoding of their UTF-8 bytes. -/
def urlencode (text : Str) : Str :=
  text.flatMap (fun c =>
    if isUrlSafe c then [c]
    else (String.utf8EncodeChar c).flatMap (fun b => percentEncodeByte b.toNat))

/-- Default page size of the followers endpoint. -/
def PAGE_SIZE_FOLLOWERS : Nat := 12

/-- Default page size of the outbox endpoint. -/
def PAGE_SIZE_OUTBOX : Nat := 20

/-- The user fields consulted by the two page builders: identity, the
follower counter, and the creation month that anchors the oldest activity
partition. -/
structure PageUser : Type where
  domain_name : Str
  username : Str
  follower_count : Int
  created_year : Nat
  created_month : Nat
deriving DecidableEq

/-- Translates the User.id property. -/
def PageUser.id (u : PageUser) : Str := make_user_id u.domain_name u.username

/-- Translates the User.followers_uri property. -/
def PageUser.followers_uri (u : PageUser) : Str := make_user_followers_uri u.id

/-- Translates the User.outbox_uri property. -/
def PageUser.outbox_uri (u : PageUser) : Str := make_user_outbox_uri u.id

/-- A follower collection page document; absent next and prev keys are
none.  Translates the base object of make_follower_collection_page plus
the optional keys merged from the options argument. -/
structure FollowerPage : Type where
  context : Str
  id : Str
  typ : Str
  totalItems : Int
  partOf : Str
  orderedItems : List Str
  next : Option Str
  prev : Option Str
deriving DecidableEq

/-- Translates make_follower_collection_page; the options dictionary at the
call sites holds exactly the next and prev keys, passed here explicitly. -/
def make_follower_collection_page (user : PageUser) (id : Str)
    (followers : List Str) (next prev : Option Str) : FollowerPage :=
  { context := ACTIVITY_STREAMS_CONTEXT
    id := id
    typ := str "OrderedCollectionPage"
    totalItems := user.follower_count
    partOf := user.followers_uri
    orderedItems := followers
    next := next
    prev := prev }

/-- Translates get_follower_page_before.  The enum argument stands for the
generator user.enumerate_followers with the page size and the given before
cursor; islice keeps at most a page of it. -/
def get_follower_page_before (enum : Str → List Str) (user : PageUser)
    (before : Str) : FollowerPage :=
  let before_key := urlencode before
  let current_id := user.followers_uri ++ str "?page=true&before=" ++ before_key
  let followers := (enum before).take PAGE_SIZE_FOLLOWERS
  if followers.isEmpty then
    make_follower_collection_page user current_id []
      (some (user.followers_uri ++ str "?page=true")) none
  else
    let prev_key := urlencode (followers.headD [])
    let next_key := urlencode (followers.getLastD [])
    make_follower_collection_page user current_id followers
      (some (user.followers_uri ++ str "?page=true&after=" ++ next_key))
      (some (user.followers_uri ++ str "?page=true&before=" ++ prev_key))

/-- Metadata of one activity as enumerated from the object table. -/
structure ActivityMeta : Type where
  primary_key : PrimaryKey
deriving DecidableEq

/-- The external collaborators of the outbox page builder: the object
table enumeration (by optional before and after keys) and the S3
resolution of one activity into its dictionary form. -/
structure OutboxEnv : Type where
  enumerate : Option PrimaryKey → Option PrimaryKey → List ActivityMeta
  resolve : ActivityMeta → Except Unit Str

/-- Failure kinds of the outbox page builder: ValueError for a bad cursor
and CorruptedDataError for an unresolvable object. -/
inductive OutboxErr : Type
  | valueError
  | corruptedData
deriving DecidableEq

/-- An activity collection page document; absent next and prev are none.
Translates make_activity_collection_page, which carries no totalItems. -/
structure ActivityPage : Type where
  context : Str
  id : Str
  typ : Str
  partOf : Str
  orderedItems : List Str
  next : Option Str
  prev : Option Str
deriving DecidableEq

/-- Translates make_activity_collection_page; the options dictionary at
the call sites holds exactly the next and prev keys. -/
def make_activity_collection_page (user : PageUser) (id : Str)
    (activities : List Str) (next prev : Option Str) : ActivityPage :=
  { context := ACTIVITY_STREAMS_CONTEXT
    id := id
    typ := str "OrderedCollectionPage"
    partOf := user.outbox_uri
    orderedItems := activities
    next := next
    prev := prev }

/-- Translates get_outbox_page: deserializes truthy cursors (an error on a
malformed one), takes a page of the enumeration, reverses it when the
query was an after query, and resolves every item from the object store
(a resolution failure becomes CorruptedDataError). -/
def get_outbox_page (env : OutboxEnv) (user : PageUser)
    (before after : Option Str) :
    Except OutboxErr (List ActivityMeta × List Str) :=
  let beforeKeyE : Except OutboxErr (Option PrimaryKey) :=
    match before with
    | some b =>
      if b.isEmpty then .ok none
      else match deserialize_activity_key b user.username with
        | none => .error .valueError
        | some k => .ok (some k)
    | none => .ok none
  let afterKeyE : Except OutboxErr (Option PrimaryKey) :=
    match after with
    | some a =>
      if a.isEmpty then .ok none
      else match deserialize_activity_key a user.username with
        | none => .error .valueError
        | some k => .ok (some k)
    | none => .ok none
  match beforeKeyE, afterKeyE with
  | .error e, _ => .error e
  | _, .error e => .error e
  | .ok bk, .ok ak =>
    let metas := (env.enumerate bk ak).take PAGE_SIZE_OUTBOX
    let metas := if after.isSome then metas.reverse else metas
    match metas.mapM (fun m => env.resolve m) with
    | .error _ => .error .corruptedData
    | .ok acts => .ok (metas, acts)

/-- Translates ObjectTable.format_yyyymm composed with strftime zero
padding, for years up to four digits. -/
def format_yyyymm (year month : Nat) : Str :=
  [hexDigitChar (year / 1000 % 10), hexDigitChar (year / 100 % 10),
   hexDigitChar (year / 10 % 10), hexDigitChar (year % 10), '-',
   hexDigitChar (month / 10 % 10), hexDigitChar (month % 10)]

/-- Translates ObjectTable.make_oldest_user_activity_key: the partition of
the month the user record was created in, with a sort key below every real
item. -/
def make_oldest_user_activity_key (user : PageUser) : PrimaryKey :=
  { pk := str "activity:" ++ user.username ++ ':'
            :: format_yyyymm user.created_year user.created_month
    sk := str "00T00:00:00.000000:@" }

/-- Translates get_outbox_page_before, including the stray leading letter f
in the prev and next URIs of the non-empty branch (a known source quirk
from the f-string typo). -/
def get_outbox_page_before (env : OutboxEnv) (user : PageUser)
    (before : Str) : Except OutboxErr ActivityPage :=
  match get_outbox_page env user (some before) none with
  | .error e => .error e
  | .ok (metas, acts) =>
    let before_key := urlencode before
    let current_id := user.outbox_uri ++ str "?page=true&before=" ++ before_key
    if acts.isEmpty then
      match serialize_activity_key (make_oldest_user_activity_key user) with
      | none => .error .valueError
      | some oldest =>
        .ok (make_activity_collection_page user current_id []
          none
          (some (user.outbox_uri ++ str "?page=true&after=" ++ urlencode oldest)))
    else
      match metas with
      | [] => .error .corruptedData
      | m0 :: rest =>
        match serialize_activity_key m0.primary_key,
              serialize_activity_key ((m0 :: rest).getLastD m0).primary_key with
        | some firstKey, some lastKey =>
          .ok (make_activity_collection_page user current_id acts
            (some ('f' :: user.outbox_uri ++ str "?page=true&before=" ++ urlencode lastKey))
            (some ('f' :: user.outbox_uri ++ str "?page=true&after=" ++ urlencode firstKey)))
        | _, _ => .error .valueError

/-- The user of the concrete claim C4 inputs. -/
def pagesAlice : PageUser :=
  { domain_name := str "example.social", username := str "alice"
    follower_count := 0, created_year := 2023, created_month := 1 }

/-- Claim C4 counterexample: an empty follower page queried with the
newest sentinel as the before cursor has no prev link at all; its only
link is next, pointing at the first page.  This refutes the claim that an
empty before page of the followers endpoint has only prev set. -/
theorem C4_followers_empty_before_sets_next :
    (get_follower_page_before (fun _ => []) pagesAlice (str "~")).prev = none ∧
    (get_follower_page_before (fun _ => []) pagesAlice (str "~")).next
      = some (pagesAlice.followers_uri ++ str "?page=true") := by
  constructor <;> rfl

/-- Claim C4 as amended: an empty before page of the outbox has only prev
set, pointing at the oldest sentinel (the partition of the user record
creation month with the minimal sort key); an empty before page of the
followers endpoint instead has only next set, pointing at the first page
without a cursor. -/
theorem C4_empty_before_pages (enum : Str → List Str) (env : OutboxEnv)
    (user : PageUser) (bf bo : Str) (k : PrimaryKey) (oldest : Str)
    (hf : (enum bf).take PAGE_SIZE_FOLLOWERS = [])
    (hbo : bo ≠ [])
    (hk : deserialize_activity_key bo user.username = some k)
    (ho : (env.enumerate (some k) none).take PAGE_SIZE_OUTBOX = [])
    (hs : serialize_activity_key (make_oldest_user_activity_key user) = some oldest) :
    (get_follower_page_before enum user bf).prev = none ∧
    (get_follower_page_before enum user bf).next
      = some (user.followers_uri ++ str "?page=true") ∧
    (get_follower_page_before enum user bf).orderedItems = [] ∧
    get_outbox_page_before env user bo
      = .ok (make_activity_collection_page user
          (user.outbox_uri ++ str "?page=true&before=" ++ urlencode bo) []
          none
          (some (user.outbox_uri ++ str "?page=true&after=" ++ urlencode oldest))) ∧
    (make_activity_collection_page user
          (user.outbox_uri ++ str "?page=true&before=" ++ urlencode bo) []
          none
          (some (user.outbox_uri ++ str "?page=true&after=" ++ urlencode oldest))).next
      = none := by
  have hpage : get_outbox_page env user (some bo) none = .ok ([], []) := by
    unfold get_outbox_page
    simp only [isEmpty_false_of_ne_nil hbo, Bool.false_eq_true, if_false, hk, ho]
    rfl
  refine ⟨?_, ?_, ?_, ?_, rfl⟩
  · unfold get_follower_page_before
    rw [hf]
    rfl
  · unfold get_follower_page_before
    rw [hf]
    rfl
  · unfold get_follower_page_before
    rw [hf]
    rfl
  · unfold get_outbox_page_before
    rw [hpage]
    simp only [List.isEmpty_nil, if_true, hs]

/-- Witness for the amended claim C4 at concrete cursors and an empty
store. -/
theorem C4_empty_before_pages_witness :
    (get_follower_page_before (fun _ => []) pagesAlice (str "~")).prev = none ∧
    (get_follower_page_before (fun _ => []) pagesAlice (str "~")).next
      = some (pagesAlice.followers_uri ++ str "?page=true") ∧
    (get_follower_page_before (fun _ => []) pagesAlice (str "~")).orderedItems = [] ∧
    get_outbox_page_before
        { enumerate := fun _ _ => [], resolve := fun _ => .ok [] } pagesAlice
        (str "2023-05-17T10:31:00.123456:0189")
      = .ok (make_activity_collection_page pagesAlice
          (pagesAlice.outbox_uri ++ str "?page=true&before="
            ++ urlencode (str "2023-05-17T10:31:00.123456:0189")) []
          none
          (some (pagesAlice.outbox_uri ++ str "?page=true&after="
            ++ urlencode (str "2023-01-00T00:00:00.000000:@")))) ∧
    (make_activity_collection_page pagesAlice
          (pagesAlice.outbox_uri ++ str "?page=true&before="
            ++ urlencode (str "2023-05-17T10:31:00.123456:0189")) []
          none
          (some (pagesAlice.outbox_uri ++ str "?page=true&after="
            ++ urlencode (str "2023-01-00T00:00:00.000000:@")))).next
      = none :=
  C4_empty_before_pages (fun _ => [])
    { enumerate := fun _ _ => [], resolve := fun _ => .ok [] }
    pagesAlice (str "~") (str "2023-05-17T10:31:00.123456:0189")
    { pk := str "activity:alice:2023-05", sk := str "17T10:31:00.123456:0189" }
    (str "2023-01-00T00:00:00.000000:@")
    (by decide) (by decide) (by decide) (by decide) (by decide)

/-! ## Claim C6: outbound translation (translate_outbound_object and
Create.wrap_note) -/

theorem users_cons : str "/users/" = '/' :: str "users/" := by decide

theorem posts_cons : str "/posts/" = '/' :: str "posts/" := by decide

/-- Translates libmumble.id_scheme.split_user_id: hostname, username and
the remaining path after the username. -/
def split_user_id (user_id : Str) : Option (Str × Str × Str) :=
  match uriHostPath user_id with
  | none => none
  | some (host, path) =>
    match split_user_path path with
    | none => none
    | some (username, remaining) => some (host, username, remaining)

/-- Translates libmumble.id_scheme.parse_user_post_id: the remaining path
after the username, with a trailing slash allowed, must be slash posts
slash followed by one or more non-slash characters. -/
def parse_user_post_id (post_id : Str) : Option (Str × Str × Str) :=
  match split_user_id post_id with
  | none => none
  | some (domain_name, username, remaining) =>
    let remaining := rstripChar '/' remaining
    match dropHead (str "/posts/") remaining with
    | none => none
    | some up =>
      if up.isEmpty then none
      else if hasChar '/' up then none
      else some (domain_name, username, up)

theorem uriHostPath_canonical (D t : Str) (hD1 : D ≠ []) (hD2 : '/' ∉ D) :
    uriHostPath (str "https://" ++ (D ++ ('/' :: t))) = some (D, '/' :: t) := by
  obtain ⟨h1, h2⟩ := takeWhile_append_eq (fun a => decide (a ≠ '/')) D ('/' :: t)
    (fun a ha => by
      simp only [decide_eq_true_eq]
      intro he; exact hD2 (he ▸ ha))
    (by simp)
  unfold uriHostPath
  rw [dropHead_append]
  simp only [h1, h2, isEmpty_false_of_ne_nil hD1, Bool.false_eq_true, if_false]

theorem split_user_path_canonical (u r : Str) (hu1 : u ≠ []) (hu2 : '/' ∉ u)
    (hr : r = [] ∨ ∃ t, r = '/' :: t) :
    split_user_path (str "/users/" ++ (u ++ r)) = some (u, r) := by
  obtain ⟨h1, h2⟩ := takeWhile_append_eq (fun a => decide (a ≠ '/')) u r
    (fun a ha => by
      simp only [decide_eq_true_eq]
      intro he; exact hu2 (he ▸ ha))
    (by
      rcases hr with rfl | ⟨t, rfl⟩
      · exact trivial
      · simp)
  unfold split_user_path
  rw [dropHead_append]
  simp only [h1, h2, isEmpty_false_of_ne_nil hu1, Bool.false_eq_true, if_false]

theorem parse_user_post_id_canonical (D u up : Str)
    (hD1 : D ≠ []) (hD2 : '/' ∉ D) (hu1 : u ≠ []) (hu2 : '/' ∉ u)
    (hup1 : up ≠ []) (hup2 : '/' ∉ up) :
    parse_user_post_id (make_user_id D u ++ str "/posts/" ++ up)
      = some (D, u, up) := by
  have harg : make_user_id D u ++ str "/posts/" ++ up
      = str "https://" ++ (D ++ ('/' :: (str "users/" ++ (u ++ (str "/posts/" ++ up))))) := by
    unfold make_user_id
    rw [users_cons]
    simp only [List.append_assoc, List.cons_append]
  have hpath : ('/' :: (str "users/" ++ (u ++ (str "/posts/" ++ up))))
      = str "/users/" ++ (u ++ (str "/posts/" ++ up)) := by
    rw [users_cons]; rfl
  have hstrip : rstripChar '/' (str "/posts/" ++ up) = str "/posts/" ++ up :=
    rstripChar_append '/' (str "/posts/") up hup1
      (fun a ha => fun he => hup2 (he ▸ ha))
  unfold parse_user_post_id split_user_id
  rw [harg, uriHostPath_canonical D _ hD1 hD2]
  simp only [hpath,
    split_user_path_canonical u (str "/posts/" ++ up) hu1 hu2
      (Or.inr ⟨str "posts/" ++ up, by rw [posts_cons]; rfl⟩),
    hstrip, dropHead_append, isEmpty_false_of_ne_nil hup1,
    (hasChar_eq_false_iff '/' up).mpr hup2, Bool.false_eq_true, if_false]

/-- A staged Note document: the dictionary fields that the translation
reads and writes.  A missing key is none. -/
structure NoteDoc : Type where
  context : Option Str
  id : Option Str
  content : Str
  attributedTo : Option Str
  published : Option Str
  to? : Option StrOrStrs
  cc? : Option StrOrStrs
  bcc? : Option StrOrStrs
deriving DecidableEq

/-- A Create activity document as built by Create.wrap_note and completed
by translate_note. -/
structure CreateDoc : Type where
  context : Str
  typ : Str
  id : Option Str
  actor : Str
  published : Str
  obj : NoteDoc
  to? : Option StrOrStrs
  cc? : Option StrOrStrs
  bcc? : Option StrOrStrs
deriving DecidableEq

/-- Translates libactivitypub.activity.Create.wrap_note: copies actor from
attributedTo and published from the note (an AttributeError when either is
missing), embeds the note without its context, copies to, cc and bcc when
present, and leaves the id blank. -/
def wrap_note (note : NoteDoc) : Except Unit CreateDoc :=
  match note.attributedTo, note.published with
  | some actor, some pub =>
    .ok { context := ACTIVITY_STREAMS_CONTEXT
          typ := str "Create"
          id := none
          actor := actor
          published := pub
          obj := { note with context := none }
          to? := note.to?
          cc? := note.cc?
          bcc? := note.bcc? }
  | _, _ => .error ()

/-- The outcome of translating a staged Note: the Create activity, and the
post object saved in the object store under its key (save_post). -/
structure TranslateResult : Type where
  create : CreateDoc
  saved_post_key : Str
  saved_post : NoteDoc
deriving DecidableEq

/-- Failure kinds of the outbound translation. -/
inductive TranslateErr : Type
  | unsupported
  | valueError
  | attributeError
deriving DecidableEq

/-- Translates translate_outbound_object.index.translate_note.  The
post_unique and activity_unique arguments stand for the two freshly
generated UUID v7 unique parts (generate_user_post_id and
generate_user_activity_id), and now for current_yyyymmdd_hhmmss. -/
def translate_note (user : PageUser) (post_unique activity_unique now : Str)
    (note : NoteDoc) : Except TranslateErr TranslateResult :=
  let note1 : NoteDoc :=
    { note with context := some ACTIVITY_STREAMS_CONTEXT
                id := some (user.id ++ str "/posts/" ++ post_unique)
                attributedTo := some user.id
                published := some now }
  match parse_user_post_id (user.id ++ str "/posts/" ++ post_unique) with
  | none => .error .valueError
  | some (_, username, unique_part) =>
    match wrap_note note1 with
    | .error _ => .error .attributeError
    | .ok create0 =>
      .ok { create := { create0 with
              id := some (user.id ++ str "/activities/" ++ activity_unique) }
            saved_post_key := str "objects/users/" ++ username
              ++ str "/posts/" ++ unique_part ++ str ".json"
            saved_post := note1 }

/-- A staged payload as loaded from the staging outbox and dispatched on
its type by translate_object. -/
inductive StagedObject : Type
  | accept (payload : Str)
  | note (n : NoteDoc)
  | other (typ : Str)
deriving DecidableEq

/-- The result of translating a staged payload. -/
inductive TranslateOut : Type
  | fromAccept (context : Str) (id : Str) (payload : Str)
  | fromNote (r : TranslateResult)
deriving DecidableEq

/-- Translates translate_outbound_object.index.translate_object: Accept
gains the context and a fresh activity id, a Note goes through
translate_note, and anything else raises the undeliverable TypeError. -/
def translate_object (user : PageUser) (post_unique activity_unique now : Str) :
    StagedObject → Except TranslateErr TranslateOut
  | .accept payload =>
    .ok (.fromAccept ACTIVITY_STREAMS_CONTEXT
      (user.id ++ str "/activities/" ++ activity_unique) payload)
  | .note n =>
    (translate_note user post_unique activity_unique now n).map .fromNote
  | .other _ => .error .unsupported

theorem append_left_ne (p : Str) {x y : Str} (h : x ≠ y) : p ++ x ≠ p ++ y :=
  fun he => h (List.append_cancel_left he)

/-- Claim C6: translating a staged Note sets its context, assigns the
fresh post id, sets attributedTo to the actor URI of the user and
published to the current time, persists the note at its post-object key,
and returns a Create with its own fresh activity id (distinct from the
post id) copying to, cc, bcc and published from the note; any staged
payload that is neither an Accept nor a Note fails as unsupported. -/
theorem C6_translate_note (user : PageUser) (post_unique activity_unique now : Str)
    (note : NoteDoc)
    (hD1 : user.domain_name ≠ []) (hD2 : '/' ∉ user.domain_name)
    (hu1 : user.username ≠ []) (hu2 : '/' ∉ user.username)
    (hp1 : post_unique ≠ []) (hp2 : '/' ∉ post_unique) :
    translate_object user post_unique activity_unique now (.note note)
      = .ok (.fromNote
          { create :=
              { context := ACTIVITY_STREAMS_CONTEXT
                typ := str "Create"
                id := some (user.id ++ str "/activities/" ++ activity_unique)
                actor := user.id
                published := now
                obj := { note with
                         context := none,
                         id := some (user.id ++ str "/posts/" ++ post_unique),
                         attributedTo := some user.id,
                         published := some now }
                to? := note.to?
                cc? := note.cc?
                bcc? := note.bcc? }
            saved_post_key := str "objects/users/" ++ user.username
              ++ str "/posts/" ++ post_unique ++ str ".json"
            saved_post := { note with
                            context := some ACTIVITY_STREAMS_CONTEXT,
                            id := some (user.id ++ str "/posts/" ++ post_unique),
                            attributedTo := some user.id,
                            published := some now } }) ∧
    user.id ++ str "/activities/" ++ activity_unique
      ≠ user.id ++ str "/posts/" ++ post_unique ∧
    (∀ t, translate_object user post_unique activity_unique now (.other t)
      = .error .unsupported) := by
  refine ⟨?_, ?_, fun t => rfl⟩
  · show (translate_note user post_unique activity_unique now note).map _ = _
    unfold translate_note
    rw [show user.id = make_user_id user.domain_name user.username from rfl,
      parse_user_post_id_canonical user.domain_name user.username post_unique
        hD1 hD2 hu1 hu2 hp1 hp2]
    rfl
  · intro he
    rw [List.append_assoc, List.append_assoc] at he
    have h2 := List.append_cancel_left he
    have e1 : str "/activities/" = '/' :: 'a' :: str "ctivities/" := by decide
    have e2 : str "/posts/" = '/' :: 'p' :: str "osts/" := by decide
    rw [e1, e2] at h2
    simp only [List.cons_append] at h2
    injection h2 with ha h3
    injection h3 with hb h4
    exact absurd hb (by decide)

/-- Witness for claim C6 at a concrete user, unique parts and note. -/
theorem C6_translate_note_witness :
    translate_object pagesAlice (str "p0189") (str "a0189")
        (str "2023-05-17T10:31:00Z")
        (.note {
                 context := none, id := none, content := str "hi",
                 attributedTo := none, published := none,
                 to? := some (.many [ACTIVITY_STREAMS_PUBLIC_ADDRESS]),
                 cc? := none, bcc? := none })
      = .ok (.fromNote
          { create :=
              { context := ACTIVITY_STREAMS_CONTEXT
                typ := str "Create"
                id := some (pagesAlice.id ++ str "/activities/" ++ str "a0189")
                actor := pagesAlice.id
                published := str "2023-05-17T10:31:00Z"
                obj := {
                         context := none,
                         id := some (pagesAlice.id ++ str "/posts/" ++ str "p0189"),
                         content := str "hi",
                         attributedTo := some pagesAlice.id,
                         published := some (str "2023-05-17T10:31:00Z"),
                         to? := some (.many [ACTIVITY_STREAMS_PUBLIC_ADDRESS]),
                         cc? := none, bcc? := none }
                to? := some (.many [ACTIVITY_STREAMS_PUBLIC_ADDRESS])
                cc? := none
                bcc? := none }
            saved_post_key := str "objects/users/" ++ str "alice"
              ++ str "/posts/" ++ str "p0189" ++ str ".json"
            saved_post := {
                            context := some ACTIVITY_STREAMS_CONTEXT,
                            id := some (pagesAlice.id ++ str "/posts/" ++ str "p0189"),
                            content := str "hi",
                            attributedTo := some pagesAlice.id,
                            published := some (str "2023-05-17T10:31:00Z"),
                            to? := some (.many [ACTIVITY_STREAMS_PUBLIC_ADDRESS]),
                            cc? := none, bcc? := none } }) ∧
    pagesAlice.id ++ str "/activities/" ++ str "a0189"
      ≠ pagesAlice.id ++ str "/posts/" ++ str "p0189" ∧
    (∀ t, translate_object pagesAlice (str "p0189") (str "a0189")
        (str "2023-05-17T10:31:00Z") (.other t) = .error .unsupported) :=
  C6_translate_note pagesAlice (str "p0189") (str "a0189")
    (str "2023-05-17T10:31:00Z")
    {
      context := none, id := none, content := str "hi",
      attributedTo := none, published := none,
      to? := some (.many [ACTIVITY_STREAMS_PUBLIC_ADDRESS]),
      cc? := none, bcc? := none }
    (by decide) (by decide) (by decide) (by decide) (by decide) (by decide)

/-! ## Claims C7 and C8: the inbound pipeline (receive_inbound_activity and
libactivitypub.signature) -/

/-- Splits a list at every occurrence of the character c, modelling the
Python split method with a one character separator (adjacent separators
yield empty pieces). -/
def splitOnChar (c : Char) : Str → List Str
  | [] => [[]]
  | a :: rest =>
    if a = c then [] :: splitOnChar c rest
    else match splitOnChar c rest with
      | [] => [[a]]
      | h :: t => (a :: h) :: t

/-- Translates MANDATORY_HEADERS. -/
def MANDATORY_HEADERS : List Str :=
  [str "(request-target)", str "host", str "date"]

/-- Translates parse_signature_headers_parameter: splits the headers
parameter on single spaces, requires the three mandatory headers to occur
and every piece to be non-empty; none models the ValueError. -/
def parse_signature_headers_parameter (headers : Str) : Option (List Str) :=
  let i_headers := splitOnChar ' ' headers
  if ¬ (∀ h ∈ MANDATORY_HEADERS, h ∈ i_headers) then none
  else if i_headers.any (fun h => h.isEmpty) then none
  else some i_headers

/-- Translates SIGNATURE_WINDOW_IN_SECONDS. -/
def SIGNATURE_WINDOW_IN_SECONDS : Int := 30

/-- Translates is_valid_signature_date.  Timestamps are modelled as
microseconds since the epoch, the resolution of the datetime values the
source subtracts; the float total seconds comparison against the window is
exact at that resolution. -/
def is_valid_signature_date (now date_ts : Int) : Bool :=
  decide ((now - date_ts).natAbs ≤ (SIGNATURE_WINDOW_IN_SECONDS * 1000000).toNat)

/-- Failure kinds of verify_signature_and_headers: the ValueError for an
unsupported algorithm, the ValueError for a date out of the window, the
ValueError from the headers parameter, and the VerificationError kinds for
a digest mismatch or an unauthentic signature. -/
inductive VerifyErr : Type
  | badAlgorithm
  | dateOutOfBounds
  | badHeaders
  | digestMismatch
  | notAuthentic
deriving DecidableEq

/-- A parsed Signature header as produced by parse_signature. -/
structure SignatureRec : Type where
  key_id : Str
  algorithm : Str
  headers : Str
  signature : Str
deriving DecidableEq

/-- Translates verify_signature_and_headers.  The two booleans abstract
the SHA-256 body digest comparison and the RSA verification of the signing
string, which depend only on data fixed for the request. -/
def verify_signature_and_headers (now : Int) (crypto_ok digest_ok : Bool)
    (sig : SignatureRec) (date_ts : Int) : Except VerifyErr Unit :=
  if sig.algorithm ≠ str "rsa-sha256" then .error .badAlgorithm
  else if ¬ is_valid_signature_date now date_ts then .error .dateOutOfBounds
  else match parse_signature_headers_parameter sig.headers with
    | none => .error .badHeaders
    | some hs =>
      if (str "digest") ∈ hs ∧ digest_ok = false then .error .digestMismatch
      else if crypto_ok = false then .error .notAuthentic
      else .ok ()

/-- The fields of a parsed activity JSON document that the inbound
pipeline inspects: the type, the actor reference id and the object
reference id (each absent when the key is missing). -/
structure ActivityJson : Type where
  typ : Option Str
  actor : Option Str
  objectRef : Option Str
deriving DecidableEq

/-- The activity types Activity.parse_object dispatches on.  Delete is
absent: the source has no branch and no Delete class for it. -/
def SUPPORTED_ACTIVITY_TYPES : List Str :=
  [str "Announce", str "Create", str "Follow", str "Like", str "Undo",
   str "Accept", str "Reject"]

/-- The types whose wrapper classes require an object key at construction
(Follow, Like, Undo and the ResponseActivity subclasses). -/
def OBJECT_REQUIRED_TYPES : List Str :=
  [str "Follow", str "Like", str "Undo", str "Accept", str "Reject"]

/-- Translates Activity.parse_object together with the constructor checks
of the per-type wrapper classes: a missing or unsupported type is a
ValueError (Delete is unsupported), a missing actor is a ValueError from
the Activity initializer, and a missing object is a ValueError for the
types that require one. -/
def parse_activity_object (j : ActivityJson) : Except Unit ActivityJson :=
  match j.typ with
  | none => .error ()
  | some t =>
    if ¬ t ∈ SUPPORTED_ACTIVITY_TYPES then .error ()
    else if j.actor = none then .error ()
    else if t ∈ OBJECT_REQUIRED_TYPES ∧ j.objectRef = none then .error ()
    else .ok j

/-- A raw request body: its length and the result of parsing it as JSON
(none models a json.loads failure or a non-dictionary payload). -/
structure BodyModel : Type where
  size : Nat
  json : Option ActivityJson
deriving DecidableEq

/-- Translates PREFILTER_BODY_SIZE. -/
def PREFILTER_BODY_SIZE : Nat := 10 * 1024

/-- Translates prefilter_activity.  A body over the size limit is passed
through unparsed; otherwise the body must parse as an activity (an error
models the TypeError or ValueError).  The source then compares the type
against Delete and casts to the Delete class; that branch is unreachable
because parse_object has no Delete branch and raises first (and the
imported name Delete does not exist in libactivitypub), but it is kept
here as written. -/
def prefilter_activity (body : BodyModel) :
    Except Unit (Option Str × Option ActivityJson) :=
  if body.size > PREFILTER_BODY_SIZE then .ok (none, none)
  else match body.json with
    | none => .error ()
    | some j =>
      match parse_activity_object j with
      | .error _ => .error ()
      | .ok a =>
        if a.typ = some (str "Delete") then
          if a.actor = a.objectRef then
            .ok (some (str "Delete of the actor itself"), some a)
          else .ok (none, some a)
        else .ok (none, some a)

/-- Translates libmumble.utils.to_urlsafe_base64. -/
def to_urlsafe_base64 (b64 : Str) : Str :=
  (rstripChar '=' b64).map (fun c =>
    if c = '+' then '-' else if c = '/' then '_' else c)

/-- The signer actor document: its id and its publicKey member (key id and
PEM), none when the attribute is missing or malformed. -/
structure SignerDoc : Type where
  id : Str
  publicKey : Option (Str × Str)
deriving DecidableEq

/-- Failure kinds of resolving the signer actor. -/
inductive ResolveErr : Type
  | httpError
  | valueError
deriving DecidableEq

/-- The external collaborators of the inbound handler: the clock, the
outcome of parsing the Signature header of the event, the signer actor
fetched from the key id, the crypto and digest outcomes, and the user
lookup. -/
structure InboundEnv : Type where
  now : Int
  parse_signature_result : Except Unit SignatureRec
  resolve_signer : Except ResolveErr SignerDoc
  crypto_ok : Bool
  digest_ok : Bool
  find_user : Str → Bool

/-- The inbound event: recipient username, the parsed Date header as a
timestamp, the Digest header value and the raw body. -/
structure InboundEvent : Type where
  username : Str
  date_ts : Int
  digest : Str
  body : BodyModel

/-- Handler failure kinds. -/
inductive HandlerErr : Type
  | badRequest
  | unauthorized
  | notFound
deriving DecidableEq

/-- The externally visible writes of the inbound handler. -/
inductive InboundEffect : Type
  | quarantined (tag : Str)
  | persistedInbox (key : Str)
deriving DecidableEq

/-- Translates receive_inbound_activity.index.lambda_handler: prefilter,
signature parsing, signer resolution, public key sanity, verification,
body parsing, signer and actor comparison, user lookup and persistence,
together with the quarantine writes on each failure path. -/
def receive_inbound_lambda_handler (env : InboundEnv) (event : InboundEvent) :
    Except HandlerErr Unit × List InboundEffect :=
  match prefilter_activity event.body with
  | .error _ => (.error .badRequest, [.quarantined (str "invalid_activity")])
  | .ok (some _, _) => (.ok (), [])
  | .ok (none, parsed?) =>
    match env.parse_signature_result with
    | .error _ => (.error .unauthorized, [.quarantined (str "bad_signature")])
    | .ok sig =>
      match env.resolve_signer with
      | .error .httpError =>
        (.error .unauthorized, [.quarantined (str "bad_signer")])
      | .error .valueError =>
        (.error .unauthorized, [.quarantined (str "bad_signer_format")])
      | .ok signer =>
        match signer.publicKey with
        | none => (.error .unauthorized, [.quarantined (str "bad_signer_format")])
        | some (kid, _pem) =>
          if kid ≠ sig.key_id then
            (.error .unauthorized, [.quarantined (str "bad_signer_format")])
          else
            match verify_signature_and_headers env.now env.crypto_ok
                env.digest_ok sig event.date_ts with
            | .error _ =>
              (.error .unauthorized, [.quarantined (str "invalid_signature")])
            | .ok _ =>
              match (match parsed? with
                     | some a => Except.ok a
                     | none =>
                       match event.body.json with
                       | none => Except.error ()
                       | some j => parse_activity_object j) with
              | .error _ =>
                (.error .badRequest, [.quarantined (str "invalid_activity")])
              | .ok act =>
                if act.actor ≠ some signer.id then
                  (.error .unauthorized, [.quarantined (str "invalid_activity")])
                else if env.find_user event.username = false then
                  (.error .notFound, [.quarantined (str "bad_recipient")])
                else
                  match dropHead (str "SHA-256=") event.digest with
                  | none =>
                    (.error .badRequest, [.quarantined (str "bad_signature")])
                  | some d =>
                    (.ok (), [.persistedInbox (str "inbox/users/"
                      ++ event.username ++ '/'
                      :: (to_urlsafe_base64 d ++ str ".json"))])

/-- A concrete environment for the claim C7 evaluation; its contents are
irrelevant because the handler fails before consulting it. -/
def inboundEnvStub : InboundEnv :=
  { now := 0
    parse_signature_result := .error ()
    resolve_signer := .error .httpError
    crypto_ok := false
    digest_ok := false
    find_user := fun _ => false }

/-- The concrete self-directed Delete request of claim C7: a small body
whose JSON parses as a Delete whose actor equals its object. -/
def selfDeleteEvent : InboundEvent :=
  { username := str "alice"
    date_ts := 0
    digest := str "SHA-256=AAAA"
    body := { size := 100
              json := some { typ := some (str "Delete")
                             actor := some (str "https://remote.example/users/bob")
                             objectRef := some (str "https://remote.example/users/bob") } } }

/-- Claim C7 (code bug evidence): Activity.parse_object rejects every
document of type Delete (the dispatch has no Delete branch, and the
Delete class the handler imports does not exist in libactivitypub), so a
small self-directed Delete body never reaches the prefilter drop: the
handler quarantines it and fails BadRequest instead of returning success
with no effect. -/
theorem C7_self_delete_not_dropped :
    (∀ a o, parse_activity_object
        { typ := some (str "Delete"), actor := a, objectRef := o } = .error ()) ∧
    receive_inbound_lambda_handler inboundEnvStub selfDeleteEvent
      = (.error .badRequest, [.quarantined (str "invalid_activity")]) := by
  constructor
  · intro a o
    rfl
  · rfl

theorem verify_date_window_fail (now date_ts : Int) (crypto_ok digest_ok : Bool)
    (sig : SignatureRec) (halg : sig.algorithm = str "rsa-sha256")
    (hfar : (SIGNATURE_WINDOW_IN_SECONDS * 1000000).toNat < (now - date_ts).natAbs) :
    verify_signature_and_headers now crypto_ok digest_ok sig date_ts
      = .error .dateOutOfBounds := by
  unfold verify_signature_and_headers
  rw [halg]
  have hvalid : is_valid_signature_date now date_ts = false := by
    unfold is_valid_signature_date
    simp only [decide_eq_false_iff_not, not_le]
    exact hfar
  simp [hvalid]

/-- Claim C8: with the supported algorithm, a signature date within thirty
seconds of the current time passes the date validation (verification never
fails with the date error), a date farther than thirty seconds fails with
exactly the date error, and on the inbound handler path such a request is
rejected Unauthorized with its envelope quarantined. -/
theorem C8_signature_date_window :
    (∀ (now date_ts : Int) (crypto_ok digest_ok : Bool) (sig : SignatureRec),
      sig.algorithm = str "rsa-sha256" →
      (now - date_ts).natAbs ≤ (SIGNATURE_WINDOW_IN_SECONDS * 1000000).toNat →
      verify_signature_and_headers now crypto_ok digest_ok sig date_ts
        ≠ .error .dateOutOfBounds) ∧
    (∀ (now date_ts : Int) (crypto_ok digest_ok : Bool) (sig : SignatureRec),
      sig.algorithm = str "rsa-sha256" →
      (SIGNATURE_WINDOW_IN_SECONDS * 1000000).toNat < (now - date_ts).natAbs →
      verify_signature_and_headers now crypto_ok digest_ok sig date_ts
        = .error .dateOutOfBounds) ∧
    (∀ (env : InboundEnv) (event : InboundEvent) (p : Option ActivityJson)
        (sig : SignatureRec) (signer : SignerDoc) (pem : Str),
      prefilter_activity event.body = .ok (none, p) →
      env.parse_signature_result = .ok sig →
      sig.algorithm = str "rsa-sha256" →
      env.resolve_signer = .ok signer →
      signer.publicKey = some (sig.key_id, pem) →
      (SIGNATURE_WINDOW_IN_SECONDS * 1000000).toNat < (env.now - event.date_ts).natAbs →
      receive_inbound_lambda_handler env event
        = (.error .unauthorized, [.quarantined (str "invalid_signature")])) := by
  refine ⟨?_, ?_, ?_⟩
  · intro now date_ts crypto_ok digest_ok sig halg hnear
    unfold verify_signature_and_headers
    rw [halg]
    have hvalid : is_valid_signature_date now date_ts = true := by
      unfold is_valid_signature_date
      simpa using hnear
    simp only [ne_eq, not_true_eq_false, if_false, hvalid, Bool.true_eq_false,
      not_false_eq_true]
    match parse_signature_headers_parameter sig.headers with
    | none => simp
    | some hs =>
      by_cases hdig : (str "digest") ∈ hs ∧ digest_ok = false
      · simp [hdig]
      · simp only [hdig, if_false]
        by_cases hcr : crypto_ok = false
        · simp [hcr]
        · simp [hcr]
  · intro now date_ts crypto_ok digest_ok sig halg hfar
    exact verify_date_window_fail now date_ts crypto_ok digest_ok sig halg hfar
  · intro env event p sig signer pem hpre hsig halg hres hpk hfar
    unfold receive_inbound_lambda_handler
    simp only [hpre, hsig, hres, hpk,
      verify_date_window_fail env.now event.date_ts env.crypto_ok env.digest_ok
        sig halg hfar, ne_eq, not_true_eq_false, if_false]

/-- Witness for claim C8 at twenty-nine and thirty-one seconds of clock
skew on either side, and the concrete Unauthorized rejection of a signed
request dated thirty-one seconds into the future. -/
theorem C8_signature_date_window_witness :
    (verify_signature_and_headers 0 true true
        { key_id := str "k", algorithm := str "rsa-sha256"
          headers := str "(request-target) host date", signature := str "s" }
        29000000
      ≠ .error .dateOutOfBounds) ∧
    (verify_signature_and_headers 0 true true
        { key_id := str "k", algorithm := str "rsa-sha256"
          headers := str "(request-target) host date", signature := str "s" }
        (-29000000)
      ≠ .error .dateOutOfBounds) ∧
    (verify_signature_and_headers 0 true true
        { key_id := str "k", algorithm := str "rsa-sha256"
          headers := str "(request-target) host date", signature := str "s" }
        31000000
      = .error .dateOutOfBounds) ∧
    (verify_signature_and_headers 0 true true
        { key_id := str "k", algorithm := str "rsa-sha256"
          headers := str "(request-target) host date", signature := str "s" }
        (-31000000)
      = .error .dateOutOfBounds) ∧
    receive_inbound_lambda_handler
        { now := 0
          parse_signature_result := .ok
            { key_id := str "k", algorithm := str "rsa-sha256"
              headers := str "(request-target) host date", signature := str "s" }
          resolve_signer := .ok
            { id := str "https://remote.example/users/bob"
              publicKey := some (str "k", str "pem") }
          crypto_ok := true
          digest_ok := true
          find_user := fun _ => true }
        { username := str "alice"
          date_ts := 31000000
          digest := str "SHA-256=AAAA"
          body := { size := 100
                    json := some { typ := some (str "Follow")
                                   actor := some (str "https://remote.example/users/bob")
                                   objectRef := some (str "https://example.social/users/alice") } } }
      = (.error .unauthorized, [.quarantined (str "invalid_signature")]) :=
  ⟨C8_signature_date_window.1 0 29000000 true true _ rfl (by decide),
   C8_signature_date_window.1 0 (-29000000) true true _ rfl (by decide),
   C8_signature_date_window.2.1 0 31000000 true true _ rfl (by decide),
   C8_signature_date_window.2.1 0 (-31000000) true true _ rfl (by decide),
   C8_signature_date_window.2.2 _ _
     (some { typ := some (str "Follow")
             actor := some (str "https://remote.example/users/bob")
             objectRef := some (str "https://example.social/users/alice") })
     _ _ (str "pem") rfl rfl rfl rfl rfl (by decide)⟩

/-! ## Claim C3: recipient expansion (states.expand_recipients) -/

/-- Adds an element to a Python set modelled as a duplicate-free list; a
member is left where it is. -/
def insertUnique (x : Str) (l : List Str) : List Str :=
  if x ∈ l then l else x :: l

theorem insertUnique_of_mem {x : Str} {l : List Str} (h : x ∈ l) :
    insertUnique x l = l := by
  unfold insertUnique
  simp [h]

theorem mem_insertUnique_self (x : Str) (l : List Str) :
    x ∈ insertUnique x l := by
  unfold insertUnique
  by_cases h : x ∈ l <;> simp [h]

theorem mem_insertUnique_of_mem (y : Str) {x : Str} {l : List Str}
    (h : x ∈ l) : x ∈ insertUnique y l := by
  unfold insertUnique
  by_cases hy : y ∈ l <;> simp [hy, h]

/-- The state of RecipientCollector.  In the source these three sets are
class attributes, initialized once at class creation and shared by every
instance: the constructor does not reset them, so the state survives
across RecipientCollector() constructions within one process.  The model
therefore threads the state through explicitly, and expand_recipients
receives the state the previous call left behind. -/
structure CollectorState : Type where
  recipients : List Str
  excluded : List Str
  collected : List Str
deriving DecidableEq

/-- The class-creation-time value of the three class attributes. -/
def initialCollectorState : CollectorState :=
  { recipients := [], excluded := [ACTIVITY_STREAMS_PUBLIC_ADDRESS], collected := [] }

/-- One fetched external recipient document, as classified by
resolve_inboxes_of_recipient: a Person (with its inbox and optional
sharedInbox endpoint URIs), a Collection type, or anything else. -/
inductive ExternalDoc : Type
  | person (inbox : Str) (sharedInbox : Option Str)
  | collection
  | other (typ : Str)
deriving DecidableEq

/-- The outcome of DictObject.resolve on a recipient URI. -/
inductive FetchOutcome : Type
  | ok (doc : ExternalDoc)
  | gone
  | httpError (status : Nat)
  | timeout
deriving DecidableEq

/-- The external collaborators of recipient expansion: the configured
domain, the HTTP fetch of a recipient document, the user table lookup,
the follower enumeration, and the fetch of a remote activity (used by
visit_accept) reduced to the actor id it reports.  Each is a function of
its URI, so one process observes one consistent answer per URI. -/
structure ExpandEnv : Type where
  domain_name : Str
  fetch : Str → FetchOutcome
  find_user : Str → Bool
  followers_of : Str → List Str
  resolve_activity : Str → Except Unit Str

/-- Failure kinds inside the collector; fuel models the recursion budget
of the Python call stack and is never exhausted on the runs the theorems
start from. -/
inductive ExpandErr : Type
  | httpError (status : Nat)
  | timeout
  | notFound
  | valueError
  | typeError
  | fuel
deriving DecidableEq

/-- Translates the external half of resolve_inboxes_of_recipient: fetch
the recipient; a 410 is logged and skipped; a Person contributes its
sharedInbox when present, otherwise its inbox; a Collection is deferred
(skipped); any other type raises the unsupported TypeError. -/
def resolveExternal (env : ExpandEnv) (s : CollectorState) (recipient : Str) :
    Except ExpandErr CollectorState :=
  match env.fetch recipient with
  | .gone => .ok s
  | .httpError status => .error (.httpError status)
  | .timeout => .error .timeout
  | .ok (.person inbox sharedInbox) =>
    match sharedInbox with
    | some shared => .ok { s with recipients := insertUnique shared s.recipients }
    | none => .ok { s with recipients := insertUnique inbox s.recipients }
  | .ok .collection => .ok s
  | .ok (.other _) => .error .typeError

mutual

/-- The body of resolve_inboxes_of_recipient past its two skip guards,
together with resolve_internal_inboxes and resolve_user_followers: the
recipient is resolved either internally (own domain: a user path adds the
user inbox, a followers path recurses into every follower edge, anything
else is a ValueError; an unknown user is a NotFoundError) or externally. -/
def resolveFresh (env : ExpandEnv) :
    Nat → CollectorState → Str → Except ExpandErr CollectorState
  | fuel, s1, recipient =>
    match uriHostPath recipient with
    | some (host, path) =>
      if host = env.domain_name then
        match split_user_path path with
        | none => .error .valueError
        | some (username, remaining) =>
          if env.find_user username = false then .error .notFound
          else if remaining.isEmpty then
            .ok { s1 with
              recipients := insertUnique
                (make_user_inbox_uri (make_user_id env.domain_name username))
                s1.recipients }
          else if remaining = str "/followers" then
            match fuel with
            | 0 => .error .fuel
            | fuel' + 1 => resolveList env fuel' s1 (env.followers_of username)
          else .error .valueError
      else resolveExternal env s1 recipient
    | none => resolveExternal env s1 recipient
termination_by fuel _ _ => (fuel, 0, 0)

/-- Translates RecipientCollector.resolve_inboxes_of_recipient: an
excluded or already collected recipient is skipped; otherwise it is
recorded as collected first and then resolved. -/
def resolveRecipient (env : ExpandEnv) :
    Nat → CollectorState → Str → Except ExpandErr CollectorState
  | fuel, s, recipient =>
    if recipient ∈ s.excluded then .ok s
    else if recipient ∈ s.collected then .ok s
    else
      resolveFresh env fuel
        { s with collected := insertUnique recipient s.collected } recipient
termination_by fuel _ _ => (fuel, 0, 1)

/-- Translates the loops of resolve_inboxes and resolve_user_followers:
recipients are resolved one after the other, threading the collector
state. -/
def resolveList (env : ExpandEnv) :
    Nat → CollectorState → List Str → Except ExpandErr CollectorState
  | _, s, [] => .ok s
  | fuel, s, r :: rest =>
    match resolveRecipient env fuel s r with
    | .error e => .error e
    | .ok s' => resolveList env fuel s' rest
termination_by fuel _ l => (fuel, l.length, 2)

end

/-- Translates RecipientCollector.resolve_inboxes: a single string is one
recipient, otherwise the value is iterated. -/
def resolveAudience (env : ExpandEnv) (fuel : Nat) (s : CollectorState) :
    StrOrStrs → Except ExpandErr CollectorState
  | .one r => resolveRecipient env fuel s r
  | .many rs => resolveList env fuel s rs

/-- Resolves an audience field when present (the hasattr guard). -/
def resolveOptAudience (env : ExpandEnv) (fuel : Nat) (s : CollectorState) :
    Option StrOrStrs → Except ExpandErr CollectorState
  | none => .ok s
  | some a => resolveAudience env fuel s a

/-- The reference held in the object field of a staged Accept: an inline
activity document (read directly) or a remote URI (fetched). -/
inductive AcceptObjectRef : Type
  | inline (actorId : Str)
  | remote (uri : Str)
deriving DecidableEq

/-- The activity forms visit dispatches on: a Create with its audience
fields, an Accept with its object reference, or any other kind, which the
default visitor methods ignore. -/
inductive ExpandActivity : Type
  | create (actorId : Str) (to? cc? bcc? : Option StrOrStrs)
  | accept (actorId : Str) (objectRef : AcceptObjectRef)
  | otherKind (typ : Str) (actorId : Str)
deriving DecidableEq

/-- Translates Activity.visit with a RecipientCollector: visit_create
excludes the sender and resolves to, cc and bcc in order; visit_accept
excludes the sender, resolves the accepted activity and collects its
actor; every other kind is logged and ignored. -/
def visitActivity (env : ExpandEnv) (fuel : Nat) (s : CollectorState) :
    ExpandActivity → Except ExpandErr CollectorState
  | .create actorId to? cc? bcc? =>
    let s1 : CollectorState := { s with excluded := insertUnique actorId s.excluded }
    match resolveOptAudience env fuel s1 to? with
    | .error e => .error e
    | .ok s2 =>
      match resolveOptAudience env fuel s2 cc? with
      | .error e => .error e
      | .ok s3 => resolveOptAudience env fuel s3 bcc?
  | .accept actorId objectRef =>
    let s1 : CollectorState := { s with excluded := insertUnique actorId s.excluded }
    match (match objectRef with
           | .inline a => Except.ok a
           | .remote uri => env.resolve_activity uri) with
    | .error _ => .error .typeError
    | .ok acceptedActor => resolveRecipient env fuel s1 acceptedActor
  | .otherKind _ _ => .ok s

/-- The error kinds expand_recipients lets escape: 429 and timeouts become
TransientError, everything else propagates. -/
inductive ExpandCallErr : Type
  | transient
  | failed (e : ExpandErr)
deriving DecidableEq

/-- Translates expand_recipients: constructs a RecipientCollector (whose
class-attribute state is the state the process already holds), visits the
activity, and returns the recipients set as a list, remapping transient
errors. -/
def expand_recipients (env : ExpandEnv) (fuel : Nat) (s : CollectorState)
    (activity : ExpandActivity) :
    Except ExpandCallErr (List Str × CollectorState) :=
  match visitActivity env fuel s activity with
  | .ok s1 => .ok (s1.recipients, s1)
  | .error (.httpError 429) => .error .transient
  | .error .timeout => .error .transient
  | .error e => .error (.failed e)

/-- The two guard sets of the collector only ever grow. -/
def stateLE (s t : CollectorState) : Prop :=
  (∀ x, x ∈ s.excluded → x ∈ t.excluded) ∧
  (∀ x, x ∈ s.collected → x ∈ t.collected)

theorem stateLE_refl (s : CollectorState) : stateLE s s :=
  ⟨fun _ h => h, fun _ h => h⟩

theorem stateLE_trans {a b c : CollectorState} (h1 : stateLE a b)
    (h2 : stateLE b c) : stateLE a c :=
  ⟨fun x hx => h2.1 x (h1.1 x hx), fun x hx => h2.2 x (h1.2 x hx)⟩

theorem resolveExternal_le {env : ExpandEnv} {s : CollectorState} {r : Str}
    {s' : CollectorState} (h : resolveExternal env s r = .ok s') :
    stateLE s s' := by
  unfold resolveExternal at h
  split at h <;> try split at h
  all_goals cases h
  all_goals exact ⟨fun x hx => hx, fun x hx => hx⟩

theorem resolve_mono (env : ExpandEnv) : ∀ fuel : Nat,
    (∀ s r s', resolveFresh env fuel s r = .ok s' → stateLE s s') ∧
    (∀ s L s', resolveList env fuel s L = .ok s' → stateLE s s') := by
  intro fuel
  induction fuel using Nat.strong_induction_on with
  | _ fuel ih =>
    have hfresh : ∀ s r s', resolveFresh env fuel s r = .ok s' → stateLE s s' := by
      intro s r s' h
      unfold resolveFresh at h
      split at h
      · split at h
        · split at h
          · cases h
          · split at h
            · cases h
            · split at h
              · cases h
                exact ⟨fun x hx => hx, fun x hx => hx⟩
              · split at h
                · split at h
                  · cases h
                  · next _ fuel' =>
                      exact (ih fuel' (by omega)).2 _ _ _ h
                · cases h
        · exact resolveExternal_le h
      · exact resolveExternal_le h
    have hrec : ∀ s r s', resolveRecipient env fuel s r = .ok s' → stateLE s s' := by
      intro s r s' h
      unfold resolveRecipient at h
      split at h
      · cases h; exact stateLE_refl _
      · split at h
        · cases h; exact stateLE_refl _
        · refine stateLE_trans ?_ (hfresh _ _ _ h)
          exact ⟨fun x hx => hx, fun x hx => mem_insertUnique_of_mem _ hx⟩
    refine ⟨hfresh, ?_⟩
    intro s L s' h
    induction L generalizing s with
    | nil =>
      unfold resolveList at h
      cases h
      exact stateLE_refl _
    | cons a rest ihL =>
      unfold resolveList at h
      split at h
      · cases h
      · rename_i s'' heq
        exact stateLE_trans (hrec _ _ _ heq) (ihL _ h)

theorem resolveRecipient_le {env : ExpandEnv} {fuel : Nat} {s : CollectorState}
    {r : Str} {s' : CollectorState}
    (h : resolveRecipient env fuel s r = .ok s') : stateLE s s' := by
  unfold resolveRecipient at h
  split at h
  · cases h; exact stateLE_refl _
  · split at h
    · cases h; exact stateLE_refl _
    · refine stateLE_trans ?_ ((resolve_mono env fuel).1 _ _ _ h)
      exact ⟨fun x hx => hx, fun x hx => mem_insertUnique_of_mem _ hx⟩

theorem resolveRecipient_skip {env : ExpandEnv} {fuel : Nat} {s : CollectorState}
    {r : Str} (h : r ∈ s.excluded ∨ r ∈ s.collected) :
    resolveRecipient env fuel s r = .ok s := by
  unfold resolveRecipient
  rcases h with h | h
  · simp [h]
  · by_cases he : r ∈ s.excluded
    · simp [he]
    · simp [he, h]

theorem resolveRecipient_covered {env : ExpandEnv} {fuel : Nat}
    {s : CollectorState} {r : Str} {s' : CollectorState}
    (h : resolveRecipient env fuel s r = .ok s') :
    r ∈ s'.excluded ∨ r ∈ s'.collected := by
  unfold resolveRecipient at h
  split at h
  · next hm => cases h; exact Or.inl hm
  · split at h
    · next hm => cases h; exact Or.inr hm
    · have hle := (resolve_mono env fuel).1 _ _ _ h
      exact Or.inr (hle.2 r (mem_insertUnique_self r _))

theorem resolveList_covered {env : ExpandEnv} {fuel : Nat} : ∀ {L : List Str}
    {s s' : CollectorState}, resolveList env fuel s L = .ok s' →
    ∀ r ∈ L, r ∈ s'.excluded ∨ r ∈ s'.collected := by
  intro L
  induction L with
  | nil => intro s s' h r hr; cases hr
  | cons a rest ihL =>
    intro s s' h r hr
    unfold resolveList at h
    split at h
    · cases h
    · rename_i s'' heq
      rcases List.mem_cons.mp hr with rfl | hr2
      · have hcov := resolveRecipient_covered heq
        have hle := (resolve_mono env fuel).2 _ _ _ h
        rcases hcov with hx | hx
        · exact Or.inl (hle.1 _ hx)
        · exact Or.inr (hle.2 _ hx)
      · exact ihL h r hr2

theorem resolveList_rerun {env : ExpandEnv} {fuel : Nat} : ∀ {L : List Str}
    {s : CollectorState},
    (∀ r ∈ L, r ∈ s.excluded ∨ r ∈ s.collected) →
    resolveList env fuel s L = .ok s := by
  intro L
  induction L with
  | nil =>
    intro s _
    unfold resolveList
    rfl
  | cons a rest ihL =>
    intro s hall
    unfold resolveList
    rw [resolveRecipient_skip (hall a (List.mem_cons_self a rest))]
    exact ihL (fun r hr => hall r (List.mem_cons_of_mem a hr))

/-- The recipients an audience value denotes, as a list. -/
def audienceList : StrOrStrs → List Str
  | .one r => [r]
  | .many rs => rs

/-- The recipients an optional audience field denotes. -/
def optAudienceList : Option StrOrStrs → List Str
  | none => []
  | some a => audienceList a

theorem resolveOptAudience_eq_list (env : ExpandEnv) (fuel : Nat)
    (s : CollectorState) : ∀ oa : Option StrOrStrs,
    resolveOptAudience env fuel s oa = resolveList env fuel s (optAudienceList oa)
  | none => by simp [resolveOptAudience, optAudienceList, resolveList]
  | some (.one r) => by
    simp only [resolveOptAudience, resolveAudience, optAudienceList, audienceList]
    cases hr : resolveRecipient env fuel s r with
    | error e => simp [resolveList, hr]
    | ok s2 => simp [resolveList, hr]
  | some (.many rs) => by
    simp [resolveOptAudience, resolveAudience, optAudienceList, audienceList]

theorem resolveOptAudience_le {env : ExpandEnv} {fuel : Nat}
    {s : CollectorState} {oa : Option StrOrStrs} {s' : CollectorState}
    (h : resolveOptAudience env fuel s oa = .ok s') : stateLE s s' := by
  rw [resolveOptAudience_eq_list] at h
  exact (resolve_mono env fuel).2 _ _ _ h

theorem resolveOptAudience_covered {env : ExpandEnv} {fuel : Nat}
    {s : CollectorState} {oa : Option StrOrStrs} {s' : CollectorState}
    (h : resolveOptAudience env fuel s oa = .ok s') :
    ∀ r ∈ optAudienceList oa, r ∈ s'.excluded ∨ r ∈ s'.collected := by
  rw [resolveOptAudience_eq_list] at h
  exact resolveList_covered h

theorem resolveOptAudience_rerun {env : ExpandEnv} {fuel : Nat}
    {s : CollectorState} {oa : Option StrOrStrs}
    (hall : ∀ r ∈ optAudienceList oa, r ∈ s.excluded ∨ r ∈ s.collected) :
    resolveOptAudience env fuel s oa = .ok s := by
  rw [resolveOptAudience_eq_list]
  exact resolveList_rerun hall

theorem visitActivity_idempotent {env : ExpandEnv} {fuel : Nat}
    {s : CollectorState} {a : ExpandActivity} {s1 : CollectorState}
    (h : visitActivity env fuel s a = .ok s1) :
    visitActivity env fuel s1 a = .ok s1 := by
  cases a with
  | otherKind t actorId =>
    cases h
    rfl
  | create actorId to? cc? bcc? =>
    simp only [visitActivity] at h ⊢
    split at h
    · cases h
    · rename_i s2 heq1
      split at h
      · cases h
      · rename_i s3 heq2
        -- heq1 : to from the excluded-extended state, heq2 : cc, h : bcc
        have hle2 : stateLE s2 s3 := resolveOptAudience_le heq2
        have hle3 : stateLE s3 s1 := resolveOptAudience_le h
        have hle23 : stateLE s2 s1 := stateLE_trans hle2 hle3
        have hle12 : stateLE { s with excluded := insertUnique actorId s.excluded } s2 :=
          resolveOptAudience_le heq1
        have hactor : actorId ∈ s1.excluded :=
          hle23.1 _ (hle12.1 _ (mem_insertUnique_self actorId s.excluded))
        have hset : ({ s1 with excluded := insertUnique actorId s1.excluded } : CollectorState) = s1 := by
          rw [insertUnique_of_mem hactor]
        have hto : resolveOptAudience env fuel s1 to? = .ok s1 := by
          apply resolveOptAudience_rerun
          intro r hr
          rcases resolveOptAudience_covered heq1 r hr with hx | hx
          · exact Or.inl (hle23.1 _ hx)
          · exact Or.inr (hle23.2 _ hx)
        have hcc : resolveOptAudience env fuel s1 cc? = .ok s1 := by
          apply resolveOptAudience_rerun
          intro r hr
          rcases resolveOptAudience_covered heq2 r hr with hx | hx
          · exact Or.inl (hle3.1 _ hx)
          · exact Or.inr (hle3.2 _ hx)
        have hbcc : resolveOptAudience env fuel s1 bcc? = .ok s1 := by
          apply resolveOptAudience_rerun
          intro r hr
          exact resolveOptAudience_covered h r hr
        rw [hset, hto]
        simp only [hcc, hbcc]
  | accept actorId objectRef =>
    simp only [visitActivity] at h ⊢
    split at h
    · cases h
    · rename_i acceptedActor heq
      have hle : stateLE { s with excluded := insertUnique actorId s.excluded } s1 :=
        resolveRecipient_le h
      have hactor : actorId ∈ s1.excluded :=
        hle.1 _ (mem_insertUnique_self actorId s.excluded)
      have hset : ({ s1 with excluded := insertUnique actorId s1.excluded } : CollectorState) = s1 := by
        rw [insertUnique_of_mem hactor]
      rw [hset]
      exact resolveRecipient_skip (resolveRecipient_covered h)

/-- Claim C3: calling expand_recipients twice in the same process on the
same activity returns the same recipient list both times, and the second
call leaves the collector state exactly where the first call left it.
The collector state is the class-attribute state of RecipientCollector
that persists across constructor calls, so the theorem quantifies over an
arbitrary state the process may already hold. -/
theorem C3_expand_recipients_idempotent (env : ExpandEnv) (fuel : Nat)
    (s : CollectorState) (activity : ExpandActivity) (recips : List Str)
    (s1 : CollectorState)
    (h : expand_recipients env fuel s activity = .ok (recips, s1)) :
    expand_recipients env fuel s1 activity = .ok (recips, s1) := by
  unfold expand_recipients at h ⊢
  split at h
  · rename_i s1' heq
    injection h with h2
    have hr : s1'.recipients = recips := congrArg Prod.fst h2
    have hs : s1' = s1 := congrArg Prod.snd h2
    subst hs
    rw [visitActivity_idempotent heq, ← hr]
  · cases h
  · cases h
  · cases h

/-- The environment of the concrete claim C3 witness: one external
recipient that resolves to a Person with a plain inbox. -/
def expandEnvCarol : ExpandEnv :=
  { domain_name := str "example.social"
    fetch := fun r =>
      if r = str "https://remote.example/users/carol"
      then .ok (.person (str "https://remote.example/users/carol/inbox") none)
      else .gone
    find_user := fun _ => false
    followers_of := fun _ => []
    resolve_activity := fun _ => .error () }

/-- The concrete Create activity of the claim C3 witness, addressed to the
public address and one external actor. -/
def createToCarol : ExpandActivity :=
  .create (str "https://example.social/users/alice")
    (some (.many [ACTIVITY_STREAMS_PUBLIC_ADDRESS,
      str "https://remote.example/users/carol"]))
    none none

/-- Witness for claim C3: expanding a concrete Create from the fresh
process state collects one inbox, and the theorem applies to that run. -/
theorem C3_expand_recipients_idempotent_witness :
    expand_recipients expandEnvCarol 2 initialCollectorState createToCarol
      = .ok ([str "https://remote.example/users/carol/inbox"],
          { recipients := [str "https://remote.example/users/carol/inbox"]
            excluded := [str "https://example.social/users/alice",
              ACTIVITY_STREAMS_PUBLIC_ADDRESS]
            collected := [str "https://remote.example/users/carol"] }) ∧
    expand_recipients expandEnvCarol 2
        { recipients := [str "https://remote.example/users/carol/inbox"]
          excluded := [str "https://example.social/users/alice",
            ACTIVITY_STREAMS_PUBLIC_ADDRESS]
          collected := [str "https://remote.example/users/carol"] }
        createToCarol
      = .ok ([str "https://remote.example/users/carol/inbox"],
          { recipients := [str "https://remote.example/users/carol/inbox"]
            excluded := [str "https://example.social/users/alice",
              ACTIVITY_STREAMS_PUBLIC_ADDRESS]
            collected := [str "https://remote.example/users/carol"] }) := by
  have h1 : expand_recipients expandEnvCarol 2 initialCollectorState createToCarol
      = .ok ([str "https://remote.example/users/carol/inbox"],
          { recipients := [str "https://remote.example/users/carol/inbox"]
            excluded := [str "https://example.social/users/alice",
              ACTIVITY_STREAMS_PUBLIC_ADDRESS]
            collected := [str "https://remote.example/users/carol"] }) := by
    simp [expand_recipients, visitActivity, resolveOptAudience, resolveAudience,
      resolveList, resolveRecipient, resolveFresh, resolveExternal,
      insertUnique, initialCollectorState, expandEnvCarol, createToCarol,
      uriHostPath, dropHead, str, ACTIVITY_STREAMS_PUBLIC_ADDRESS]
  exact ⟨h1,
    C3_expand_recipients_idempotent expandEnvCarol 2 initialCollectorState
      createToCarol _ _ h1⟩

end Mumble
